import Mathlib

/-!
Verification of the FitTrackee federation activity-processing core.

The activity handlers (Follow, Accept, Reject, Undo, Delete, Update) are
embedded from fittrackee/federation/activities/activities.py.  The persistence
layer is modelled as an explicit `Store` value threaded through the handlers;
a handler that raises in Python returns `Except.error` here, and the
commit-or-rollback behaviour of the session is captured by `commit_result`.
Components that the repository snapshot only exercises through tests
(the follow-graph operations, the visibility policy, `get_workout`, the
outbound fan-out selector, remote-actor provisioning, duration and date
parsing) are modelled from the specification and are marked as such in
their doc comments.
-/

namespace FitTrackee

deriving instance DecidableEq for Except

/-- Visibility levels for workout data and map data. -/
inductive PrivacyLevel
  | PRIVATE
  | FOLLOWERS
  | FOLLOWERS_AND_REMOTE
  | PUBLIC
deriving DecidableEq

/-- State of a follow request (§4.4 of the design). -/
inductive FRState
  | pending
  | accepted
  | rejected
deriving DecidableEq

/-- Directed follow-request edge keyed by (follower actor id, followed actor id). -/
structure FollowRequest where
  follower : Nat
  followed : Nat
  state : FRState
deriving DecidableEq

/-- Federation peer domain. -/
structure Domain where
  name : String
  is_remote : Bool
  is_peer : Bool
deriving DecidableEq

/-- Federation identity; users and actors are in one-to-one correspondence, so
follow edges and ownership are keyed by the actor id. -/
structure Actor where
  id : Nat
  activitypub_id : String
  domain : String
  shared_inbox_url : String
deriving DecidableEq

/-- Parsed workout date (UTC, wire format YYYY-MM-DD HH:MM). -/
structure WorkoutDate where
  year : Nat
  month : Nat
  day : Nat
  hour : Nat
  minute : Nat
deriving DecidableEq

/-- Stored workout row; durations are elapsed seconds. -/
structure Workout where
  ap_id : String
  owner_actor_id : Nat
  sport_id : Nat
  ave_speed : Int
  distance : Int
  duration : Nat
  max_speed : Int
  moving : Nat
  title : String
  workout_date : WorkoutDate
  workout_visibility : PrivacyLevel
  map_visibility : PrivacyLevel
deriving DecidableEq

/-- Persistent state: the relational store behind the handlers.  `blocks`
holds (blocker actor id, blocked actor id) pairs; `nextId` feeds fresh actor
ids on remote-actor provisioning. -/
structure Store where
  domains : List Domain
  actors : List Actor
  followRequests : List FollowRequest
  workouts : List Workout
  blocks : List (Nat × Nat)
  nextId : Nat
deriving DecidableEq

/-- Nested object of an activity envelope, with the workout wire fields made
optional: accessing a missing key in the Python dict raises KeyError. -/
structure ObjData where
  type : String
  actor : String
  object : String
  id : String
  sport_id : Option Nat
  ave_speed : Option Int
  distance : Option Int
  duration : Option String
  max_speed : Option Int
  moving : Option String
  title : Option String
  workout_date : Option String
  workout_visibility : Option PrivacyLevel
deriving DecidableEq

/-- The `object` field of an envelope is either a plain URL string or a
nested structure. -/
inductive ActivityObject
  | str (s : String)
  | obj (o : ObjData)
deriving DecidableEq

/-- Activity envelope (transient wire message). -/
structure Env where
  id : String
  type : String
  actor : String
  object : ActivityObject
deriving DecidableEq

/-- Errors raised by the handlers, following the taxonomy of §7.
`activityException` covers both ActivityMismatch and InvalidWorkoutActivity,
which the source raises as `ActivityException` with a message. -/
inductive Err
  | actorNotFound (msg : String)
  | objectNotFound (kind : String) (activity : String)
  | activityException (msg : String)
  | sportNotFound
  | followRequestAlreadyRejected
  | followRequestAlreadyProcessed
  | notExistingFollowRequest
  | typeError
deriving DecidableEq

/-- Finds the follow request for an ordered pair in a list of edges. -/
def frs_find (l : List FollowRequest) (follower followed : Nat) : Option FRState :=
  (l.find? (fun fr => fr.follower == follower && fr.followed == followed)).map (·.state)

/-- Finds the state of the follow request for an ordered pair. -/
def fr_find (st : Store) (follower followed : Nat) : Option FRState :=
  frs_find st.followRequests follower followed

/-- Records a new pending follow-request edge. -/
def add_pending_fr (st : Store) (follower followed : Nat) : Store :=
  { st with followRequests := st.followRequests ++ [⟨follower, followed, .pending⟩] }

/-- Modelled from the spec: `User.send_follow_request_to` is not under src/.
Per §4.4 and §4.3, submitting a follow request fails with
FollowRequestAlreadyRejected when a rejected request exists for the ordered
pair, is a no-op on a pending or accepted request, and otherwise records a
pending request. -/
def send_follow_request_to (follower followed : Nat) (st : Store) : Except Err Store :=
  match fr_find st follower followed with
  | some .rejected => .error .followRequestAlreadyRejected
  | some _ => .ok st
  | none => .ok (add_pending_fr st follower followed)

/-- Rewrites the state of the follow request for an ordered pair. -/
def set_fr_state (st : Store) (follower followed : Nat) (s : FRState) : Store :=
  { st with followRequests :=
      st.followRequests.map (fun fr =>
        if fr.follower == follower && fr.followed == followed
        then ⟨follower, followed, s⟩ else fr) }

/-- Modelled from the spec: `User.approves_follow_request_from` is not under
src/.  Per §4.4, approving fails with NoSuchFollowRequest when no request
exists and with FollowRequestAlreadyProcessed when the request is no longer
pending; otherwise the request becomes accepted. -/
def approves_follow_request_from (followed follower : Nat) (st : Store) : Except Err Store :=
  match fr_find st follower followed with
  | none => .error .notExistingFollowRequest
  | some .pending => .ok (set_fr_state st follower followed .accepted)
  | some _ => .error .followRequestAlreadyProcessed

/-- Modelled from the spec: `User.rejects_follow_request_from` is not under
src/.  Symmetric to approval (§4.4). -/
def rejects_follow_request_from (followed follower : Nat) (st : Store) : Except Err Store :=
  match fr_find st follower followed with
  | none => .error .notExistingFollowRequest
  | some .pending => .ok (set_fr_state st follower followed .rejected)
  | some _ => .error .followRequestAlreadyProcessed

/-- Erases the follow-request edge for an ordered pair. -/
def remove_fr (st : Store) (follower followed : Nat) : Store :=
  { st with followRequests :=
      st.followRequests.filter (fun fr =>
        !(fr.follower == follower && fr.followed == followed)) }

/-- Modelled from the spec: `User.undoes_follow` is not under src/.  Per §4.4,
undo erases the pair from any state, and fails with NoSuchFollowRequest when
no request exists between the pair. -/
def undoes_follow (followed follower : Nat) (st : Store) : Except Err Store :=
  match fr_find st follower followed with
  | none => .error .notExistingFollowRequest
  | some _ => .ok (remove_fr st follower followed)

/-- Looks up an actor by its unique activitypub_id. -/
def lookup_actor (st : Store) (url : String) : Option Actor :=
  st.actors.find? (fun a => a.activitypub_id == url)

/-- Splits a character list on a separator character, mirroring the single
character case of Python str.split; structural so that it evaluates in the
kernel. -/
def splitOnChar (c : Char) : List Char → List (List Char)
  | [] => [[]]
  | x :: xs =>
      match splitOnChar c xs with
      | [] => if x = c then [[], []] else [[x]]
      | y :: ys => if x = c then [] :: y :: ys else (x :: y) :: ys

/-- Modelled from the spec: hostname derivation used by remote-domain
provisioning (§4.1); the helper lives outside src/. -/
def hostname_from_url (url : String) : String :=
  let l := url.data
  let rest :=
    if ("https://".data).isPrefixOf l then l.drop 8
    else if ("http://".data).isPrefixOf l then l.drop 7
    else l
  String.mk ((splitOnChar '/' rest).headD rest)

/-- Modelled from the spec: `get_or_create_remote_domain_from_url` is not
under src/.  Per §4.1 it finds the Domain by hostname or creates a remote
one. -/
def get_or_create_remote_domain_from_url (url : String) (st : Store) : Domain × Store :=
  let name := hostname_from_url url
  match st.domains.find? (fun d => d.name == name) with
  | some d => (d, st)
  | none =>
      let d : Domain := ⟨name, true, false⟩
      (d, { st with domains := st.domains ++ [d] })

/-- Modelled from the spec: `create_remote_user` is not under src/.  Per §4.1
and §3 it creates a remote Actor record bound to the given Domain. -/
def create_remote_user (d : Domain) (url : String) (st : Store) : Actor × Store :=
  let a : Actor :=
    { id := st.nextId
      activitypub_id := url
      domain := d.name
      shared_inbox_url := hostname_from_url url ++ "/inbox" }
  (a, { st with actors := st.actors ++ [a], nextId := st.nextId + 1 })

/-- AbstractActivity.get_actor: resolve the envelope actor, lazily
provisioning an unknown remote actor (with its domain) only when
`create_remote_actor` is set, else failing with ActorNotFound. -/
def get_actor (create_remote_actor : Bool) (name : String) (env : Env) (st : Store) :
    Except Err (Actor × Store) :=
  match lookup_actor st env.actor with
  | some a => .ok (a, st)
  | none =>
      if create_remote_actor then
        let ds := get_or_create_remote_domain_from_url env.actor st
        .ok (create_remote_user ds.1 env.actor ds.2)
      else .error (.actorNotFound ("actor not found for " ++ name))

/-- URL denoting the object actor of an envelope (AbstractActivity.get_actors):
a plain string object is used directly; otherwise Undo reads the nested
`object` field and every other type reads the nested `actor` field. -/
def object_actor_url (env : Env) : String :=
  match env.object with
  | .str s => s
  | .obj o => if env.type == "Undo" then o.object else o.actor

/-- AbstractActivity.get_actors: resolve the envelope actor then the object
actor; the object actor is never auto-created. -/
def get_actors (create_remote_actor : Bool) (name : String) (env : Env) (st : Store) :
    Except Err (Actor × Actor × Store) :=
  match get_actor create_remote_actor name env st with
  | .error e => .error e
  | .ok (actor, st1) =>
      match lookup_actor st1 (object_actor_url env) with
      | some oa => .ok (actor, oa, st1)
      | none => .error (.actorNotFound ("object actor not found for " ++ name))

/-- FollowActivity.process_activity. -/
def follow_process (env : Env) (st : Store) : Except Err Store :=
  match get_actors true "FollowActivity" env st with
  | .error e => .error e
  | .ok (follower_actor, followed_actor, st1) =>
      send_follow_request_to follower_actor.id followed_actor.id st1

/-- AcceptActivity.process_activity: the followed actor comes from the
envelope `actor`, the follower from the `object`. -/
def accept_process (env : Env) (st : Store) : Except Err Store :=
  match get_actors false "AcceptActivity" env st with
  | .error e => .error e
  | .ok (followed_actor, follower_actor, st1) =>
      approves_follow_request_from followed_actor.id follower_actor.id st1

/-- RejectActivity.process_activity. -/
def reject_process (env : Env) (st : Store) : Except Err Store :=
  match get_actors false "RejectActivity" env st with
  | .error e => .error e
  | .ok (followed_actor, follower_actor, st1) =>
      rejects_follow_request_from followed_actor.id follower_actor.id st1

/-- UndoActivity.process_activity: only a wrapped Follow is undone; any other
wrapped object type falls through silently. -/
def undo_process (env : Env) (st : Store) : Except Err Store :=
  match env.object with
  | .str _ => .error .typeError
  | .obj o =>
      if o.type == "Follow" then
        match get_actors false "UndoActivity" env st with
        | .error e => .error e
        | .ok (follower_actor, followed_actor, st1) =>
            undoes_follow followed_actor.id follower_actor.id st1
      else .ok st

/-- Checks whether `pat` occurs as a contiguous substring of `s`. -/
def hasSubstr (s pat : String) : Bool :=
  s.toList.tails.any (fun t => pat.toList.isPrefixOf t)

/-- DeleteActivity.delete_remote_workout: lookup by ap_id, ownership check,
then deletion. -/
def delete_remote_workout (o : ObjData) (actor : Actor) (st : Store) : Except Err Store :=
  match st.workouts.find? (fun w => w.ap_id == o.id) with
  | none => .error (.objectNotFound "workout" "DeleteActivity")
  | some w =>
      if w.owner_actor_id != actor.id then
        .error (.activityException
          "DeleteActivity: activity actor does not match workout actor.")
      else
        .ok { st with workouts := st.workouts.filter (fun x => !(x.ap_id == o.id)) }

/-- DeleteActivity.process_activity: the actor is resolved first, then the
envelope id is tested for the literal substring "workout". -/
def delete_process (env : Env) (st : Store) : Except Err Store :=
  match get_actor false "DeleteActivity" env st with
  | .error e => .error e
  | .ok (actor, st1) =>
      if hasSubstr env.id "workout" then
        match env.object with
        | .obj o => delete_remote_workout o actor st1
        | .str _ => .error .typeError
      else .ok st1

/-- Failure inside the Update field-assignment block, carrying the Python
exception class name and message. -/
structure FieldErr where
  className : String
  message : String
deriving DecidableEq

/-- Reads a wire field, failing like the Python KeyError on a missing key. -/
def getField {α : Type} (o : Option α) (key : String) : Except FieldErr α :=
  match o with
  | some v => .ok v
  | none => .error ⟨"KeyError", key⟩

/-- Checks that a character list is a non-empty run of decimal digits. -/
def allDigits (l : List Char) : Bool :=
  !l.isEmpty && l.all (fun ch => ch.isDigit)

/-- Numeric value of a digit list. -/
def natOf (l : List Char) : Nat :=
  l.foldl (fun n ch => n * 10 + (ch.toNat - 48)) 0

/-- Modelled from the spec: `convert_duration_string_to_seconds` is not under
src/.  Per §4.3/§6 a duration arrives as an H:MM:SS style string and is
converted to elapsed seconds; anything else raises ValueError. -/
def convert_duration_string_to_seconds (s : String) : Except FieldErr Nat :=
  match splitOnChar ':' s.data with
  | [h, m, sec] =>
      if allDigits h && allDigits m && allDigits sec then
        .ok (natOf h * 3600 + natOf m * 60 + natOf sec)
      else .error ⟨"ValueError", "invalid literal for int with base 10"⟩
  | _ => .error ⟨"ValueError", "not enough values to unpack"⟩

/-- Modelled from the spec: the stdlib strptime call with
WORKOUT_DATE_FORMAT (YYYY-MM-DD HH:MM per §6); a string not matching the
exact format raises ValueError. -/
def strptime_workout_date (s : String) : Except FieldErr WorkoutDate :=
  match splitOnChar ' ' s.data with
  | [d, t] =>
      match splitOnChar '-' d, splitOnChar ':' t with
      | [y, mo, da], [h, mi] =>
          if y.length == 4 && mo.length == 2 && da.length == 2
              && h.length == 2 && mi.length == 2
              && allDigits y && allDigits mo && allDigits da
              && allDigits h && allDigits mi
              && 1 ≤ natOf mo && natOf mo ≤ 12
              && 1 ≤ natOf da && natOf da ≤ 31
              && natOf h ≤ 23 && natOf mi ≤ 59 then
            .ok ⟨natOf y, natOf mo, natOf da, natOf h, natOf mi⟩
          else .error ⟨"ValueError", "time data does not match format YYYY-MM-DD HH:MM"⟩
      | _, _ => .error ⟨"ValueError", "time data does not match format YYYY-MM-DD HH:MM"⟩
  | _ => .error ⟨"ValueError", "time data does not match format YYYY-MM-DD HH:MM"⟩

/-- Field-assignment block of UpdateActivity.update_remote_workout, in source
order; the first failure aborts the whole block. -/
def apply_update_fields (o : ObjData) (w : Workout) : Except FieldErr Workout := do
  let ave_speed ← getField o.ave_speed "ave_speed"
  let distance ← getField o.distance "distance"
  let durStr ← getField o.duration "duration"
  let duration ← convert_duration_string_to_seconds durStr
  let max_speed ← getField o.max_speed "max_speed"
  let movStr ← getField o.moving "moving"
  let moving ← convert_duration_string_to_seconds movStr
  let sport_id ← getField o.sport_id "sport_id"
  let title ← getField o.title "title"
  let dateStr ← getField o.workout_date "workout_date"
  let workout_date ← strptime_workout_date dateStr
  let workout_visibility ← getField o.workout_visibility "workout_visibility"
  .ok { w with
    ave_speed := ave_speed
    distance := distance
    duration := duration
    max_speed := max_speed
    moving := moving
    sport_id := sport_id
    title := title
    workout_date := workout_date
    workout_visibility := workout_visibility }

/-- UpdateActivity.update_remote_workout: lookup by ap_id, ownership check,
then the guarded field-assignment block; any failure there is re-raised as a
single ActivityException carrying the original class name and message, and
the single commit at the end of the block never happens. -/
def update_remote_workout (o : ObjData) (actor : Actor) (st : Store) : Except Err Store :=
  match st.workouts.find? (fun w => w.ap_id == o.id) with
  | none => .error (.objectNotFound "workout" "UpdateActivity")
  | some w =>
      if w.owner_actor_id != actor.id then
        .error (.activityException
          "UpdateActivity: activity actor does not match workout actor.")
      else
        match apply_update_fields o w with
        | .error fe =>
            .error (.activityException
              ("UpdateActivity: invalid Workout activity ("
                ++ fe.className ++ ": " ++ fe.message ++ ")."))
        | .ok w2 =>
            .ok { st with workouts :=
                    st.workouts.map (fun x => if x.ap_id == o.id then w2 else x) }

/-- UpdateActivity.process_activity. -/
def update_process (env : Env) (st : Store) : Except Err Store :=
  match get_actor false "UpdateActivity" env st with
  | .error e => .error e
  | .ok (actor, st1) =>
      if hasSubstr env.id "workout" then
        match env.object with
        | .obj o => update_remote_workout o actor st1
        | .str _ => .error .typeError
      else .ok st1

/-- Transactional outcome of a handler run: the store is replaced only when
the handler committed; an exception leaves the prior store untouched. -/
def commit_result (st : Store) : Except Err Store → Store
  | .ok st2 => st2
  | .error _ => st

/-- Boolean success test for a handler run. -/
def run_ok : Except Err Store → Bool
  | .ok _ => true
  | .error _ => false

/-- Relation of a viewer to a resource owner. -/
inductive UserStatus
  | owner
  | follower
  | other
deriving DecidableEq

/-- Selector for the two independent visibility attributes of a workout. -/
inductive VisibilityField
  | workout_visibility
  | map_visibility
deriving DecidableEq

/-- Visibility attribute of a workout selected by a field name. -/
def Workout.visibility_for (w : Workout) : VisibilityField → PrivacyLevel
  | .workout_visibility => w.workout_visibility
  | .map_visibility => w.map_visibility

/-- Decision for a non-owner relation at a visibility level. -/
def visibility_decision (level : PrivacyLevel) (status : UserStatus) : Bool :=
  match level with
  | .PRIVATE => false
  | .PUBLIC => true
  | _ => status == .follower

/-- Modelled from the spec: `can_view_workout`
(fittrackee/workouts/utils/visibility.py) is not under src/, only its tests.
Per §4.2: the owner always sees the resource; otherwise the relation is
follower exactly when the viewer has an accepted follow request to the owner
(always other for an anonymous viewer), and the level table decides. -/
def can_view_workout (w : Workout) (field : VisibilityField) (viewer : Option Nat)
    (st : Store) : Bool × UserStatus :=
  match viewer with
  | some u =>
      if u == w.owner_actor_id then (true, .owner)
      else
        let status : UserStatus :=
          if fr_find st u w.owner_actor_id == some .accepted
          then .follower else .other
        (visibility_decision (w.visibility_for field) status, status)
  | none => (visibility_decision (w.visibility_for field) .other, .other)

/-- Relation column of the decision table exactly as the claim states it. -/
def claimed_relation (w : Workout) (viewer : Option Nat) (st : Store) : UserStatus :=
  match viewer with
  | none => .other
  | some u =>
      if u = w.owner_actor_id then .owner
      else if fr_find st u w.owner_actor_id = some .accepted then .follower
      else .other

/-- Boolean column of the decision table exactly as the claim states it:
owner always true; PRIVATE false; FOLLOWERS and FOLLOWERS_AND_REMOTE true iff
follower; PUBLIC true. -/
def claimed_decision (w : Workout) (field : VisibilityField) (viewer : Option Nat)
    (st : Store) : Bool :=
  match claimed_relation w viewer st with
  | .owner => true
  | rel =>
      match w.visibility_for field with
      | .PRIVATE => false
      | .FOLLOWERS => rel = .follower
      | .FOLLOWERS_AND_REMOTE => rel = .follower
      | .PUBLIC => true

/-- Authenticated viewer passed to `get_workout`. -/
structure AuthUser where
  id : Nat
  admin : Bool
deriving DecidableEq

/-- Outcome of `get_workout`: the workout, or WorkoutForbiddenException. -/
inductive GetWorkoutResult
  | returned (w : Workout)
  | workoutForbidden
deriving DecidableEq

/-- Whether `viewer` is blocked by `owner` in the store. -/
def is_blocked (st : Store) (owner viewer : Nat) : Bool :=
  st.blocks.any (fun p => p.1 == owner && p.2 == viewer)

/-- Modelled from the spec: `get_workout`
(fittrackee/workouts/utils/workouts.py) is not under src/, only its tests.
Per §4.2 the block gate is evaluated first and rejects unconditionally when
the owner has blocked the viewer; then the visibility policy applied to
workout_visibility decides. -/
def get_workout (st : Store) (w : Workout) (auth_user : Option AuthUser) :
    GetWorkoutResult :=
  match auth_user with
  | some u =>
      if is_blocked st w.owner_actor_id u.id then .workoutForbidden
      else if (can_view_workout w .workout_visibility (some u.id) st).1 then .returned w
      else .workoutForbidden
  | none =>
      if (can_view_workout w .workout_visibility none st).1 then .returned w
      else .workoutForbidden

/-- Shape of an outbound activity: the full workout representation for
recognized peer instances, the reduced note representation otherwise. -/
inductive ActivityShape
  | workoutActivity
  | noteActivity
deriving DecidableEq

/-- One delivery call to a list of shared-inbox recipients. -/
structure Delivery where
  shape : ActivityShape
  recipients : List String
deriving DecidableEq

/-- Whether a domain name is flagged remote in the store. -/
def domain_is_remote (st : Store) (name : String) : Bool :=
  match st.domains.find? (fun d => d.name == name) with
  | some d => d.is_remote
  | none => false

/-- Whether a domain name is a recognized peer (FitTrackee) instance. -/
def domain_is_peer (st : Store) (name : String) : Bool :=
  match st.domains.find? (fun d => d.name == name) with
  | some d => d.is_peer
  | none => false

/-- Modelled from the spec: the fan-out selector (§4.5) is not under src/,
only its tests.  Gather every actor with an accepted follow request to the
owner whose domain is remote. -/
def accepted_remote_followers (st : Store) (owner : Nat) : List Actor :=
  st.actors.filter (fun a =>
    fr_find st a.id owner == some .accepted && domain_is_remote st a.domain)

/-- Shared-inbox recipients among the accepted remote followers whose domain
peer flag equals `peer`, deduplicated by inbox URL. -/
def fanout_inboxes (st : Store) (owner : Nat) (peer : Bool) : List String :=
  (((accepted_remote_followers st owner).filter
      (fun a => domain_is_peer st a.domain == peer)).map
    (fun a => a.shared_inbox_url)).dedup

/-- Modelled from the spec: §4.5 Outbound Fan-out Selector.  Skip entirely for
PRIVATE and FOLLOWERS; otherwise emit at most one delivery call per
recipient-set shape: the full workout activity to peer-instance inboxes, the
reduced note activity to the others. -/
def select_deliveries (st : Store) (owner : Nat) (visibility : PrivacyLevel) :
    List Delivery :=
  if visibility == .PRIVATE || visibility == .FOLLOWERS then []
  else
    let full := fanout_inboxes st owner true
    let note := fanout_inboxes st owner false
    (if full.isEmpty then [] else [⟨.workoutActivity, full⟩])
      ++ (if note.isEmpty then [] else [⟨.noteActivity, note⟩])

/-! Concrete fixtures used to exercise the definitions at specific inputs. -/

/-- Local instance domain. -/
def localDomain : Domain := ⟨"local.example", false, false⟩

/-- Remote domain running a recognized peer (FitTrackee) instance. -/
def remoteDomain : Domain := ⟨"remote.example", true, true⟩

/-- Remote domain running a generic (non-peer) instance. -/
def otherDomain : Domain := ⟨"other.example", true, false⟩

/-- Local workout owner. -/
def actorSam : Actor := ⟨0, "https://local.example/users/sam", "local.example", "local.example/inbox"⟩

/-- Remote follower on the peer instance. -/
def actorAlex : Actor := ⟨1, "https://remote.example/users/alex", "remote.example", "remote.example/inbox"⟩

/-- Local follower. -/
def actorKim : Actor := ⟨2, "https://local.example/users/kim", "local.example", "local.example/inbox"⟩

/-- Remote follower on the non-peer instance. -/
def actorJo : Actor := ⟨3, "https://other.example/users/jo", "other.example", "other.example/inbox"⟩

/-- Store with one accepted remote peer follower and one accepted local
follower of actor 0. -/
def stFanout : Store :=
  { domains := [localDomain, remoteDomain, otherDomain]
    actors := [actorSam, actorAlex, actorKim]
    followRequests := [⟨1, 0, .accepted⟩, ⟨2, 0, .accepted⟩]
    workouts := []
    blocks := []
    nextId := 4 }

/-- Store with one accepted remote non-peer follower and one accepted local
follower of actor 0. -/
def stFanoutNote : Store :=
  { domains := [localDomain, remoteDomain, otherDomain]
    actors := [actorSam, actorJo, actorKim]
    followRequests := [⟨3, 0, .accepted⟩, ⟨2, 0, .accepted⟩]
    workouts := []
    blocks := []
    nextId := 4 }

/-- Workout owned by the remote actor 1, as stored locally. -/
def workoutW : Workout :=
  { ap_id := "https://remote.example/workouts/1"
    owner_actor_id := 1
    sport_id := 1
    ave_speed := 10
    distance := 10
    duration := 3600
    max_speed := 12
    moving := 3600
    title := "ride"
    workout_date := ⟨2022, 6, 11, 10, 23⟩
    workout_visibility := .PUBLIC
    map_visibility := .PRIVATE }

/-- Store holding `workoutW` and its owner. -/
def stUpd : Store :=
  { domains := [localDomain, remoteDomain]
    actors := [actorSam, actorAlex]
    followRequests := []
    workouts := [workoutW]
    blocks := []
    nextId := 4 }

/-- Update payload whose workout_date has an out-of-range hour. -/
def objUpdBadDate : ObjData :=
  { type := "Workout"
    actor := ""
    object := ""
    id := "https://remote.example/workouts/1"
    sport_id := some 1
    ave_speed := some 11
    distance := some 12
    duration := some "01:10:00"
    max_speed := some 14
    moving := some "01:05:00"
    title := some "updated"
    workout_date := some "2022-06-11 99:99"
    workout_visibility := some .PUBLIC }

/-- Update envelope from the owner carrying the malformed date. -/
def envUpdBadDate : Env :=
  { id := "https://remote.example/workouts/1/activity"
    type := "Update"
    actor := "https://remote.example/users/alex"
    object := .obj objUpdBadDate }

/-- Empty store. -/
def stEmpty : Store :=
  { domains := [], actors := [], followRequests := [], workouts := []
    blocks := [], nextId := 0 }

/-- Delete envelope whose id lacks the substring "workout" and whose actor is
unknown. -/
def envDelNoGate : Env :=
  { id := "https://remote.example/activities/1"
    type := "Delete"
    actor := "https://remote.example/users/alex"
    object := .str "x" }

/-- Object payload naming `workoutW` by ap_id. -/
def objDelW : ObjData :=
  { type := "Workout", actor := "", object := ""
    id := "https://remote.example/workouts/1"
    sport_id := none, ave_speed := none, distance := none, duration := none
    max_speed := none, moving := none, title := none, workout_date := none
    workout_visibility := none }

/-- Object payload naming an ap_id that matches no stored workout. -/
def objDelMissing : ObjData :=
  { type := "Workout", actor := "", object := ""
    id := "https://remote.example/workouts/404"
    sport_id := none, ave_speed := none, distance := none, duration := none
    max_speed := none, moving := none, title := none, workout_date := none
    workout_visibility := none }

/-- Delete envelope from an actor who does not own `workoutW`. -/
def envDelMismatch : Env :=
  { id := "https://remote.example/workouts/1/delete"
    type := "Delete"
    actor := "https://local.example/users/sam"
    object := .obj objDelW }

/-- Delete envelope targeting a missing workout. -/
def envDelMissing : Env :=
  { id := "https://remote.example/workouts/404/delete"
    type := "Delete"
    actor := "https://remote.example/users/alex"
    object := .obj objDelMissing }

/-- Delete envelope from a known actor whose id lacks "workout". -/
def envDelKnownNoGate : Env :=
  { id := "https://remote.example/activities/9"
    type := "Delete"
    actor := "https://remote.example/users/alex"
    object := .str "x" }

/-- Store holding only the local actor; the remote follower is unknown. -/
def stLocalOnly : Store :=
  { domains := [localDomain]
    actors := [actorSam]
    followRequests := []
    workouts := []
    blocks := []
    nextId := 4 }

/-- Wrapped Follow object of an Undo: alex had followed sam. -/
def objUndoFollow : ObjData :=
  { type := "Follow"
    actor := "https://remote.example/users/alex"
    object := "https://local.example/users/sam"
    id := ""
    sport_id := none, ave_speed := none, distance := none, duration := none
    max_speed := none, moving := none, title := none, workout_date := none
    workout_visibility := none }

/-- Undo envelope wrapping the Follow from the unknown remote actor alex. -/
def envUndoAlex : Env :=
  { id := "https://remote.example/activities/2"
    type := "Undo"
    actor := "https://remote.example/users/alex"
    object := .obj objUndoFollow }

/-- Undo envelope wrapping a non-Follow object. -/
def envUndoLike : Env :=
  { id := "https://remote.example/activities/3"
    type := "Undo"
    actor := "https://remote.example/users/alex"
    object := .obj { objUndoFollow with type := "Like" } }

/-- Follow envelope from the unknown remote actor alex to sam. -/
def envFollowAlex : Env :=
  { id := "https://remote.example/activities/4"
    type := "Follow"
    actor := "https://remote.example/users/alex"
    object := .str "https://local.example/users/sam" }

/-- Store where alex is known and follows sam (accepted). -/
def stAlexAccepted : Store :=
  { domains := [localDomain, remoteDomain]
    actors := [actorSam, actorAlex]
    followRequests := [⟨1, 0, .accepted⟩]
    workouts := []
    blocks := []
    nextId := 4 }

/-- Store where alex is known with no follow request. -/
def stAlexNone : Store :=
  { domains := [localDomain, remoteDomain]
    actors := [actorSam, actorAlex]
    followRequests := []
    workouts := []
    blocks := []
    nextId := 4 }

/-- Store holding only the remote actor alex. -/
def stRemoteOnly : Store :=
  { domains := [remoteDomain]
    actors := [actorAlex]
    followRequests := []
    workouts := []
    blocks := []
    nextId := 4 }

/-- Store where alex is known and the request from alex to sam was rejected. -/
def stAlexRejected : Store :=
  { domains := [localDomain, remoteDomain]
    actors := [actorSam, actorAlex]
    followRequests := [⟨1, 0, .rejected⟩]
    workouts := []
    blocks := []
    nextId := 4 }

/-- Accept envelope: sam (envelope actor) accepted the follow from alex
(nested object's actor). -/
def envAcceptSam : Env :=
  { id := "https://local.example/activities/5"
    type := "Accept"
    actor := "https://local.example/users/sam"
    object := .obj objUndoFollow }

/-- Store where sam blocks kim. -/
def stBlocked : Store :=
  { domains := [localDomain]
    actors := [actorSam, actorKim]
    followRequests := []
    workouts := []
    blocks := [(0, 2)]
    nextId := 4 }

/-- Public workout owned by actor 0. -/
def workoutPub : Workout := { workoutW with owner_actor_id := 0, workout_visibility := .PUBLIC }

/-- Followers-only workout owned by actor 0. -/
def workoutFol : Workout := { workoutW with owner_actor_id := 0, workout_visibility := .FOLLOWERS }

/-- Private workout owned by actor 0. -/
def workoutPriv : Workout := { workoutW with owner_actor_id := 0, workout_visibility := .PRIVATE }

/-! Helper lemmas about the store primitives. -/

/-- Looking up a pair in a concatenation whose left part misses it falls
through to the right part. -/
theorem frs_find_append_left_none (l₁ l₂ : List FollowRequest) (f g : Nat)
    (h : frs_find l₁ f g = none) : frs_find (l₁ ++ l₂) f g = frs_find l₂ f g := by
  unfold frs_find at *
  rw [List.find?_append]
  rcases hf : l₁.find? (fun fr => fr.follower == f && fr.followed == g) with _ | fr
  · rw [hf]
    rfl
  · rw [hf] at h
    simp at h

/-- Rewriting the state of a present pair makes lookup return the new state. -/
theorem frs_find_map_set (l : List FollowRequest) (f g : Nat) (s : FRState)
    (h : frs_find l f g ≠ none) :
    frs_find (l.map (fun fr =>
      if fr.follower == f && fr.followed == g then ⟨f, g, s⟩ else fr)) f g
      = some s := by
  induction l with
  | nil => simp [frs_find] at h
  | cons fr l ih =>
      by_cases hm : (fr.follower == f && fr.followed == g) = true
      · unfold frs_find
        rw [List.map_cons, if_pos hm, List.find?_cons]
        have hself : ((⟨f, g, s⟩ : FollowRequest).follower == f
            && (⟨f, g, s⟩ : FollowRequest).followed == g) = true := by simp
        rw [hself]
        rfl
      · have hm' : (fr.follower == f && fr.followed == g) = false := by
          exact Bool.not_eq_true _ ▸ hm
        have h2 : frs_find l f g ≠ none := by
          unfold frs_find at h
          rw [List.find?_cons, hm'] at h
          exact h
        have hrec := ih h2
        unfold frs_find at hrec ⊢
        rw [List.map_cons, if_neg hm, List.find?_cons, hm']
        exact hrec

/-- Actor lookup in an extended directory still finds an actor present in the
original part. -/
theorem find?_actor_append_some (l₁ l₂ : List Actor) (url : String) (a : Actor)
    (h : l₁.find? (fun x => x.activitypub_id == url) = some a) :
    (l₁ ++ l₂).find? (fun x => x.activitypub_id == url) = some a := by
  rw [List.find?_append, h]
  rfl

/-- Claim C1: `can_view_workout` realises exactly the claimed decision table:
the owner always gets (true, owner); otherwise the relation is follower iff
the viewer has an accepted follow request to the owner (always other for an
anonymous viewer), and the boolean is false for PRIVATE, true iff follower
for FOLLOWERS and FOLLOWERS_AND_REMOTE, and true for PUBLIC. -/
theorem can_view_workout_matches_table (w : Workout) (field : VisibilityField)
    (viewer : Option Nat) (st : Store) :
    can_view_workout w field viewer st =
      (claimed_decision w field viewer st, claimed_relation w viewer st) := by
  cases viewer with
  | none =>
      cases hv : w.visibility_for field <;>
        simp [can_view_workout, claimed_decision, claimed_relation,
          visibility_decision, hv]
  | some u =>
      by_cases hu : u = w.owner_actor_id
      · simp [can_view_workout, claimed_decision, claimed_relation, hu]
      · by_cases hf : fr_find st u w.owner_actor_id = some .accepted
        · cases hv : w.visibility_for field <;>
            simp [can_view_workout, claimed_decision, claimed_relation,
              visibility_decision, hu, hf, hv]
        · cases hv : w.visibility_for field <;>
            simp [can_view_workout, claimed_decision, claimed_relation,
              visibility_decision, hu, hf, hv]

/-- Claim C2: the fan-out selector makes no delivery call for PRIVATE or
FOLLOWERS visibility; for FOLLOWERS_AND_REMOTE or PUBLIC with exactly one
accepted remote follower it makes exactly one call addressed to that
follower's shared inbox only, carrying the full workout activity when the
follower's instance is a recognized peer and the note activity otherwise;
and with no accepted remote follower (in particular when all followers are
local) it makes no call at any visibility. -/
theorem select_deliveries_matches_claim (st : Store) (owner : Nat) :
    (∀ vis, vis = .PRIVATE ∨ vis = .FOLLOWERS →
      select_deliveries st owner vis = [])
    ∧ (∀ vis f, (vis = .FOLLOWERS_AND_REMOTE ∨ vis = .PUBLIC) →
        accepted_remote_followers st owner = [f] →
        select_deliveries st owner vis =
          [⟨if domain_is_peer st f.domain then .workoutActivity else .noteActivity,
            [f.shared_inbox_url]⟩])
    ∧ (∀ vis, accepted_remote_followers st owner = [] →
        select_deliveries st owner vis = []) := by
  refine ⟨?_, ?_, ?_⟩
  · rintro vis (rfl | rfl) <;> simp [select_deliveries]
  · rintro vis f (rfl | rfl) hf <;>
      · by_cases hp : domain_is_peer st f.domain <;>
          simp [select_deliveries, fanout_inboxes, hf, hp, List.filter, List.dedup_cons_of_not_mem]
  · intro vis hf
    simp [select_deliveries, fanout_inboxes, hf]

/-- Witness for C2: in a store where actor 0 has the accepted remote peer
follower alex and the accepted local follower kim, FOLLOWERS visibility
yields no delivery and FOLLOWERS_AND_REMOTE yields exactly one full-workout
delivery to alex's shared inbox; with the non-peer follower jo instead,
PUBLIC visibility yields exactly one note delivery to jo's shared inbox. -/
theorem select_deliveries_matches_claim_witness :
    select_deliveries stFanout 0 .FOLLOWERS = []
    ∧ select_deliveries stFanout 0 .FOLLOWERS_AND_REMOTE =
        [⟨.workoutActivity, ["remote.example/inbox"]⟩]
    ∧ select_deliveries stFanoutNote 0 .PUBLIC =
        [⟨.noteActivity, ["other.example/inbox"]⟩] := by
  have h1 := select_deliveries_matches_claim stFanout 0
  have h2 := select_deliveries_matches_claim stFanoutNote 0
  refine ⟨h1.1 .FOLLOWERS (Or.inr rfl), ?_, ?_⟩
  · exact (h1.2.1 .FOLLOWERS_AND_REMOTE actorAlex (Or.inl rfl) (by decide)).trans (by decide)
  · exact (h2.2.1 .PUBLIC actorJo (Or.inr rfl) (by decide)).trans (by decide)

/-- Claim C3: when an Update passes the existence and ownership checks but
any field of the assignment block fails to parse, the whole update aborts as
one ActivityException (InvalidWorkoutActivity) carrying the original
failure's class name and message, and the committed store is the prior store
unchanged. -/
theorem update_parse_failure_atomic (env : Env) (st : Store) (o : ObjData)
    (a : Actor) (w : Workout) (fe : FieldErr)
    (h1 : lookup_actor st env.actor = some a)
    (h2 : hasSubstr env.id "workout" = true)
    (h3 : env.object = .obj o)
    (h4 : st.workouts.find? (fun x => x.ap_id == o.id) = some w)
    (h5 : w.owner_actor_id = a.id)
    (h6 : apply_update_fields o w = .error fe) :
    update_process env st =
      .error (.activityException
        ("UpdateActivity: invalid Workout activity ("
          ++ fe.className ++ ": " ++ fe.message ++ ").")) ∧
    commit_result st (update_process env st) = st := by
  have hmain : update_process env st =
      .error (.activityException
        ("UpdateActivity: invalid Workout activity ("
          ++ fe.className ++ ": " ++ fe.message ++ ").")) := by
    simp [update_process, get_actor, h1, h2, h3, update_remote_workout, h4, h5, h6]
  exact ⟨hmain, by rw [hmain]; rfl⟩

/-- Witness for C3: a concrete Update from the owner of the stored workout
with a malformed workout_date aborts with InvalidWorkoutActivity carrying
ValueError and leaves the store unchanged. -/
theorem update_parse_failure_atomic_witness :
    update_process envUpdBadDate stUpd =
      .error (.activityException
        ("UpdateActivity: invalid Workout activity ("
          ++ "ValueError" ++ ": "
          ++ "time data does not match format YYYY-MM-DD HH:MM" ++ ").")) ∧
    commit_result stUpd (update_process envUpdBadDate stUpd) = stUpd := by
  exact update_parse_failure_atomic envUpdBadDate stUpd objUpdBadDate actorAlex workoutW
    ⟨"ValueError", "time data does not match format YYYY-MM-DD HH:MM"⟩
    rfl rfl rfl rfl rfl (by decide)

/-- C4 counterexample: with an unknown acting actor and an envelope id not
containing "workout", DeleteActivity is not a no-op: actor resolution runs
before the id gate and fails with ActorNotFound. -/
theorem delete_gate_counterexample :
    hasSubstr envDelNoGate.id "workout" = false
    ∧ delete_process envDelNoGate stEmpty ≠ .ok stEmpty
    ∧ delete_process envDelNoGate stEmpty =
        .error (.actorNotFound "actor not found for DeleteActivity") := by
  refine ⟨rfl, ?_, rfl⟩
  intro hcontra
  have h : delete_process envDelNoGate stEmpty =
      .error (.actorNotFound "actor not found for DeleteActivity") := rfl
  rw [hcontra] at h
  exact Except.noConfusion h

/-- Claim C4 (amended): Delete and Update resolve the acting actor before the
id gate, so an unknown actor fails with ActorNotFound even when the id lacks
"workout"; once the actor resolves, an id without "workout" is a no-op; when
the id contains "workout", a missing workout fails with ObjectNotFound and a
non-owner actor fails with ActivityMismatch, leaving the store unchanged. -/
theorem delete_update_gate_and_ownership (env : Env) (st : Store) :
    (∀ a, lookup_actor st env.actor = some a →
      hasSubstr env.id "workout" = false →
      delete_process env st = .ok st ∧ update_process env st = .ok st)
    ∧ (lookup_actor st env.actor = none →
        delete_process env st = .error (.actorNotFound "actor not found for DeleteActivity")
        ∧ update_process env st = .error (.actorNotFound "actor not found for UpdateActivity"))
    ∧ (∀ a o, lookup_actor st env.actor = some a →
        hasSubstr env.id "workout" = true →
        env.object = .obj o →
        st.workouts.find? (fun x => x.ap_id == o.id) = none →
        delete_process env st = .error (.objectNotFound "workout" "DeleteActivity")
        ∧ update_process env st = .error (.objectNotFound "workout" "UpdateActivity"))
    ∧ (∀ a o w, lookup_actor st env.actor = some a →
        hasSubstr env.id "workout" = true →
        env.object = .obj o →
        st.workouts.find? (fun x => x.ap_id == o.id) = some w →
        w.owner_actor_id ≠ a.id →
        delete_process env st =
          .error (.activityException "DeleteActivity: activity actor does not match workout actor.")
        ∧ update_process env st =
          .error (.activityException "UpdateActivity: activity actor does not match workout actor.")
        ∧ commit_result st (delete_process env st) = st
        ∧ commit_result st (update_process env st) = st) := by
  refine ⟨?_, ?_, ?_, ?_⟩
  · intro a ha hg
    constructor <;> simp [delete_process, update_process, get_actor, ha, hg]
  · intro ha
    constructor <;> simp [delete_process, update_process, get_actor, ha]
  · intro a o ha hg ho hw
    constructor <;>
      simp [delete_process, update_process, get_actor, ha, hg, ho,
        delete_remote_workout, update_remote_workout, hw]
  · intro a o w ha hg ho hw hne
    have hdel : delete_process env st =
        .error (.activityException "DeleteActivity: activity actor does not match workout actor.") := by
      simp [delete_process, get_actor, ha, hg, ho, delete_remote_workout, hw, hne]
    have hupd : update_process env st =
        .error (.activityException "UpdateActivity: activity actor does not match workout actor.") := by
      simp [update_process, get_actor, ha, hg, ho, update_remote_workout, hw, hne]
    exact ⟨hdel, hupd, by rw [hdel]; rfl, by rw [hupd]; rfl⟩

/-- Witness for the amended C4: concrete runs of the four branches — a known
actor with a gate-missing id is a no-op for Delete and Update; an unknown
actor fails with ActorNotFound; a missing workout fails with ObjectNotFound;
sam trying to delete alex's workout fails with the mismatch error and leaves
the store unchanged. -/
theorem delete_update_gate_and_ownership_witness :
    delete_process envDelKnownNoGate stUpd = .ok stUpd
    ∧ delete_process envDelNoGate stEmpty =
        .error (.actorNotFound "actor not found for DeleteActivity")
    ∧ delete_process envDelMissing stUpd =
        .error (.objectNotFound "workout" "DeleteActivity")
    ∧ delete_process envDelMismatch stUpd =
        .error (.activityException "DeleteActivity: activity actor does not match workout actor.")
    ∧ commit_result stUpd (delete_process envDelMismatch stUpd) = stUpd := by
  have hA := (delete_update_gate_and_ownership envDelKnownNoGate stUpd).1
    actorAlex rfl rfl
  have hB := (delete_update_gate_and_ownership envDelNoGate stEmpty).2.1 rfl
  have hC := (delete_update_gate_and_ownership envDelMissing stUpd).2.2.1
    actorAlex objDelMissing rfl rfl rfl rfl
  have hD := (delete_update_gate_and_ownership envDelMismatch stUpd).2.2.2
    actorSam objDelW workoutW rfl rfl rfl rfl (by decide)
  exact ⟨hA.1, hB.1, hC.1, hD.1, hD.2.2.1⟩

/-- Domain provisioning does not touch the actor table. -/
theorem gocd_actors (url : String) (st : Store) :
    ((get_or_create_remote_domain_from_url url st).2).actors = st.actors := by
  unfold get_or_create_remote_domain_from_url
  cases hD : st.domains.find? (fun d => d.name == hostname_from_url url) <;> simp [hD]

/-- Domain provisioning does not touch the follow requests. -/
theorem gocd_followRequests (url : String) (st : Store) :
    ((get_or_create_remote_domain_from_url url st).2).followRequests = st.followRequests := by
  unfold get_or_create_remote_domain_from_url
  cases hD : st.domains.find? (fun d => d.name == hostname_from_url url) <;> simp [hD]

/-- Domain provisioning does not consume an actor id. -/
theorem gocd_nextId (url : String) (st : Store) :
    ((get_or_create_remote_domain_from_url url st).2).nextId = st.nextId := by
  unfold get_or_create_remote_domain_from_url
  cases hD : st.domains.find? (fun d => d.name == hostname_from_url url) <;> simp [hD]

/-- The provisioned domain carries the hostname of the url. -/
theorem gocd_name (url : String) (st : Store) :
    ((get_or_create_remote_domain_from_url url st).1).name = hostname_from_url url := by
  unfold get_or_create_remote_domain_from_url
  cases hD : st.domains.find? (fun d => d.name == hostname_from_url url) with
  | none => simp [hD]
  | some d =>
      have hp := List.find?_some hD
      simp only [beq_iff_eq] at hp
      simp [hD, hp]

/-- The provisioned domain is recorded in the resulting store. -/
theorem gocd_mem (url : String) (st : Store) :
    (get_or_create_remote_domain_from_url url st).1
      ∈ ((get_or_create_remote_domain_from_url url st).2).domains := by
  unfold get_or_create_remote_domain_from_url
  cases hD : st.domains.find? (fun d => d.name == hostname_from_url url) with
  | none => simp [hD]
  | some d =>
      have := List.mem_of_find?_eq_some hD
      simpa [hD] using this

/-- C5 counterexample: an Undo wrapping a Follow from an unknown remote
follower fails with ActorNotFound instead of auto-creating the follower as
the Follow handler does: Undo calls actor resolution without the
auto-create flag, so the claimed NoSuchFollowRequest outcome never occurs
while the analogous Follow succeeds on the same store. -/
theorem undo_no_autocreate_counterexample :
    undo_process envUndoAlex stLocalOnly =
      .error (.actorNotFound "actor not found for UndoActivity")
    ∧ undo_process envUndoAlex stLocalOnly ≠ .error .notExistingFollowRequest
    ∧ run_ok (follow_process envFollowAlex stLocalOnly) = true := by
  exact ⟨rfl, by decide, rfl⟩

/-- Claim C5 (amended): an Undo wrapping a Follow resolves the follower from
the envelope actor and the followed from the wrapped object's object field,
both without auto-creation — unlike Follow, an unknown follower actor fails
with ActorNotFound; when both resolve, the follow relationship is cancelled
regardless of its prior state, failing with NoSuchFollowRequest when no
request exists between the pair; an Undo wrapping any other object type is a
silent no-op. -/
theorem undo_follow_semantics (env : Env) (st : Store) :
    (∀ o, env.object = .obj o → o.type ≠ "Follow" → undo_process env st = .ok st)
    ∧ (∀ o, env.object = .obj o → o.type = "Follow" →
        lookup_actor st env.actor = none →
        undo_process env st = .error (.actorNotFound "actor not found for UndoActivity"))
    ∧ (∀ o fa oa, env.object = .obj o → o.type = "Follow" →
        lookup_actor st env.actor = some fa →
        lookup_actor st (object_actor_url env) = some oa →
        (fr_find st fa.id oa.id = none →
          undo_process env st = .error .notExistingFollowRequest)
        ∧ (∀ s, fr_find st fa.id oa.id = some s →
            undo_process env st = .ok (remove_fr st fa.id oa.id))) := by
  refine ⟨?_, ?_, ?_⟩
  · intro o ho ht
    simp [undo_process, ho, ht]
  · intro o ho ht hA
    simp [undo_process, ho, ht, get_actors, get_actor, hA]
  · intro o fa oa ho ht hA hO
    constructor
    · intro hfr
      simp [undo_process, ho, ht, get_actors, get_actor, hA, hO, undoes_follow, hfr]
    · intro s hfr
      simp [undo_process, ho, ht, get_actors, get_actor, hA, hO, undoes_follow, hfr]

/-- Witness for the amended C5: an Undo wrapping a Like is a silent no-op; an
Undo from the unknown alex fails with ActorNotFound; with alex known but no
request it fails with NoSuchFollowRequest; with an accepted request it
removes the relationship. -/
theorem undo_follow_semantics_witness :
    undo_process envUndoLike stAlexAccepted = .ok stAlexAccepted
    ∧ undo_process envUndoAlex stLocalOnly =
        .error (.actorNotFound "actor not found for UndoActivity")
    ∧ undo_process envUndoAlex stAlexNone = .error .notExistingFollowRequest
    ∧ undo_process envUndoAlex stAlexAccepted =
        .ok { stAlexAccepted with followRequests := [] } := by
  have h1 := (undo_follow_semantics envUndoLike stAlexAccepted).1
    { objUndoFollow with type := "Like" } rfl (by decide)
  have h2 := (undo_follow_semantics envUndoAlex stLocalOnly).2.1 objUndoFollow rfl rfl rfl
  have h3 := (undo_follow_semantics envUndoAlex stAlexNone).2.2
    objUndoFollow actorAlex actorSam rfl rfl rfl rfl
  have h4 := (undo_follow_semantics envUndoAlex stAlexAccepted).2.2
    objUndoFollow actorAlex actorSam rfl rfl rfl rfl
  exact ⟨h1, h2, h3.1 rfl, (h4.2 .accepted rfl).trans (by decide)⟩

/-- Claim C6: the Follow handler auto-creates an unknown follower actor
together with its domain, never auto-creates the object actor (ActorNotFound
when unknown), submits a follow request from the follower to the object
actor's owner, and re-raises FollowRequestAlreadyRejected when a prior
rejected request exists for the ordered pair. -/
theorem follow_activity_semantics (env : Env) (st : Store) :
    (∀ a, lookup_actor st env.actor = some a →
      lookup_actor st (object_actor_url env) = none →
      follow_process env st =
        .error (.actorNotFound "object actor not found for FollowActivity"))
    ∧ (∀ fa oa, lookup_actor st env.actor = some fa →
        lookup_actor st (object_actor_url env) = some oa →
        fr_find st fa.id oa.id = some .rejected →
        follow_process env st = .error .followRequestAlreadyRejected)
    ∧ (∀ fa oa, lookup_actor st env.actor = some fa →
        lookup_actor st (object_actor_url env) = some oa →
        fr_find st fa.id oa.id = none →
        follow_process env st = .ok (add_pending_fr st fa.id oa.id))
    ∧ (∀ oa, lookup_actor st env.actor = none →
        lookup_actor st (object_actor_url env) = some oa →
        fr_find st st.nextId oa.id = none →
        ∃ st2, follow_process env st = .ok st2
          ∧ (∃ a2, a2 ∈ st2.actors ∧ a2.activitypub_id = env.actor
              ∧ a2.domain = hostname_from_url env.actor)
          ∧ (∃ d, d ∈ st2.domains ∧ d.name = hostname_from_url env.actor)
          ∧ fr_find st2 st.nextId oa.id = some .pending) := by
  refine ⟨?_, ?_, ?_, ?_⟩
  · intro a hA hO
    simp [follow_process, get_actors, get_actor, hA, hO]
  · intro fa oa hA hO hfr
    simp [follow_process, get_actors, get_actor, hA, hO, send_follow_request_to, hfr]
  · intro fa oa hA hO hfr
    simp [follow_process, get_actors, get_actor, hA, hO, send_follow_request_to, hfr]
  · intro oa hA hO hFr
    set ds := get_or_create_remote_domain_from_url env.actor st with hds
    set cu := create_remote_user ds.1 env.actor ds.2 with hcu
    have hacts : cu.2.actors = st.actors ++ [cu.1] := by
      rw [show cu.2.actors = ds.2.actors ++ [cu.1] from rfl, hds, gocd_actors]
    have hfrq : cu.2.followRequests = st.followRequests := by
      rw [show cu.2.followRequests = ds.2.followRequests from rfl, hds, gocd_followRequests]
    have hid : cu.1.id = st.nextId := by
      rw [show cu.1.id = ds.2.nextId from rfl, hds, gocd_nextId]
    have h1 : get_actor true "FollowActivity" env st = .ok cu := by
      simp [get_actor, hA, hcu, hds]
    have h2 : lookup_actor cu.2 (object_actor_url env) = some oa := by
      show cu.2.actors.find? (fun a => a.activitypub_id == object_actor_url env) = some oa
      rw [hacts]
      exact find?_actor_append_some _ _ _ _ hO
    have h4 : fr_find cu.2 cu.1.id oa.id = none := by
      show frs_find cu.2.followRequests cu.1.id oa.id = none
      rw [hfrq, hid]
      exact hFr
    have hrun : follow_process env st = .ok (add_pending_fr cu.2 cu.1.id oa.id) := by
      simp [follow_process, get_actors, h1, h2, send_follow_request_to, h4]
    refine ⟨add_pending_fr cu.2 cu.1.id oa.id, hrun, ⟨cu.1, ?_, rfl, ?_⟩, ⟨ds.1, ?_, ?_⟩, ?_⟩
    · show cu.1 ∈ cu.2.actors
      rw [hacts]
      exact List.mem_append_right _ (List.mem_singleton_self _)
    · rw [show cu.1.domain = ds.1.name from rfl, hds]
      exact gocd_name env.actor st
    · show ds.1 ∈ cu.2.domains
      rw [show cu.2.domains = ds.2.domains from rfl, hds]
      exact gocd_mem env.actor st
    · rw [hds]
      exact gocd_name env.actor st
    · show frs_find (cu.2.followRequests ++ [⟨cu.1.id, oa.id, .pending⟩]) st.nextId oa.id
        = some .pending
      rw [hfrq, hid, frs_find_append_left_none _ _ _ _ hFr]
      simp [frs_find]

/-- Witness for C6: on a store missing the local object actor, Follow fails
with ActorNotFound for the object actor; with a rejected prior pair it fails
with FollowRequestAlreadyRejected; with no prior pair it records the pending
request; and from the unknown remote actor alex on a store that only knows
sam, the run succeeds (auto-creating alex). -/
theorem follow_activity_semantics_witness :
    follow_process envFollowAlex stRemoteOnly =
      .error (.actorNotFound "object actor not found for FollowActivity")
    ∧ follow_process envFollowAlex stAlexRejected = .error .followRequestAlreadyRejected
    ∧ follow_process envFollowAlex stAlexNone =
        .ok (add_pending_fr stAlexNone actorAlex.id actorSam.id)
    ∧ run_ok (follow_process envFollowAlex stLocalOnly) = true := by
  have h := follow_activity_semantics envFollowAlex stRemoteOnly
  have h2 := follow_activity_semantics envFollowAlex stAlexRejected
  have h3 := follow_activity_semantics envFollowAlex stAlexNone
  have h4 := (follow_activity_semantics envFollowAlex stLocalOnly).2.2.2 actorSam rfl rfl rfl
  obtain ⟨st2, hok, -, -, -⟩ := h4
  refine ⟨h.1 actorAlex rfl rfl, h2.2.1 actorAlex actorSam rfl rfl rfl,
    h3.2.2.1 actorAlex actorSam rfl rfl rfl, ?_⟩
  rw [hok]
  rfl

/-- Claim C7: Accept and Reject resolve the followed actor from the envelope
actor and the follower from the object, with no auto-create; a missing
request for the (follower, followed) pair fails with NoSuchFollowRequest and
an already accepted or rejected request fails with
FollowRequestAlreadyProcessed — in particular a second approve after
request-then-approve, or an approve after reject, fails with
FollowRequestAlreadyProcessed; all these errors are returned to the caller. -/
theorem accept_reject_semantics (env : Env) (st : Store) :
    (lookup_actor st env.actor = none →
      accept_process env st = .error (.actorNotFound "actor not found for AcceptActivity")
      ∧ reject_process env st = .error (.actorNotFound "actor not found for RejectActivity"))
    ∧ (∀ fd, lookup_actor st env.actor = some fd →
        lookup_actor st (object_actor_url env) = none →
        accept_process env st =
          .error (.actorNotFound "object actor not found for AcceptActivity")
        ∧ reject_process env st =
          .error (.actorNotFound "object actor not found for RejectActivity"))
    ∧ (∀ fd fr, lookup_actor st env.actor = some fd →
        lookup_actor st (object_actor_url env) = some fr →
        fr_find st fr.id fd.id = none →
        accept_process env st = .error .notExistingFollowRequest
        ∧ reject_process env st = .error .notExistingFollowRequest)
    ∧ (∀ fd fr s, lookup_actor st env.actor = some fd →
        lookup_actor st (object_actor_url env) = some fr →
        fr_find st fr.id fd.id = some s → s ≠ .pending →
        accept_process env st = .error .followRequestAlreadyProcessed
        ∧ reject_process env st = .error .followRequestAlreadyProcessed)
    ∧ (∀ f g, fr_find st f g = none →
        ∀ st1, send_follow_request_to f g st = .ok st1 →
        ∀ st2, approves_follow_request_from g f st1 = .ok st2 →
        approves_follow_request_from g f st2 = .error .followRequestAlreadyProcessed)
    ∧ (∀ f g, fr_find st f g = none →
        ∀ st1, send_follow_request_to f g st = .ok st1 →
        ∀ st2, rejects_follow_request_from g f st1 = .ok st2 →
        approves_follow_request_from g f st2 = .error .followRequestAlreadyProcessed) := by
  refine ⟨?_, ?_, ?_, ?_, ?_, ?_⟩
  · intro hA
    constructor <;> simp [accept_process, reject_process, get_actors, get_actor, hA]
  · intro fd hA hO
    constructor <;> simp [accept_process, reject_process, get_actors, get_actor, hA, hO]
  · intro fd fr hA hO hfr
    constructor <;>
      simp [accept_process, reject_process, get_actors, get_actor, hA, hO,
        approves_follow_request_from, rejects_follow_request_from, hfr]
  · intro fd fr s hA hO hfr hs
    cases s with
    | pending => exact absurd rfl hs
    | accepted =>
        constructor <;>
          simp [accept_process, reject_process, get_actors, get_actor, hA, hO,
            approves_follow_request_from, rejects_follow_request_from, hfr]
    | rejected =>
        constructor <;>
          simp [accept_process, reject_process, get_actors, get_actor, hA, hO,
            approves_follow_request_from, rejects_follow_request_from, hfr]
  · intro f g hn st1 hs st2 ha
    have hsend : send_follow_request_to f g st = .ok (add_pending_fr st f g) := by
      simp [send_follow_request_to, hn]
    rw [hsend] at hs
    injection hs with hst1
    subst hst1
    have hfind1 : fr_find (add_pending_fr st f g) f g = some .pending := by
      show frs_find (st.followRequests ++ [⟨f, g, .pending⟩]) f g = some .pending
      rw [frs_find_append_left_none _ _ _ _ hn]
      simp [frs_find]
    have happr : approves_follow_request_from g f (add_pending_fr st f g) =
        .ok (set_fr_state (add_pending_fr st f g) f g .accepted) := by
      simp [approves_follow_request_from, hfind1]
    rw [happr] at ha
    injection ha with hst2
    subst hst2
    have hne : frs_find (add_pending_fr st f g).followRequests f g ≠ none := by
      have heq : frs_find (add_pending_fr st f g).followRequests f g = some .pending := hfind1
      rw [heq]
      simp
    have hfind2 : fr_find (set_fr_state (add_pending_fr st f g) f g .accepted) f g
        = some .accepted := frs_find_map_set _ f g .accepted hne
    simp [approves_follow_request_from, hfind2]
  · intro f g hn st1 hs st2 hr
    have hsend : send_follow_request_to f g st = .ok (add_pending_fr st f g) := by
      simp [send_follow_request_to, hn]
    rw [hsend] at hs
    injection hs with hst1
    subst hst1
    have hfind1 : fr_find (add_pending_fr st f g) f g = some .pending := by
      show frs_find (st.followRequests ++ [⟨f, g, .pending⟩]) f g = some .pending
      rw [frs_find_append_left_none _ _ _ _ hn]
      simp [frs_find]
    have hrej : rejects_follow_request_from g f (add_pending_fr st f g) =
        .ok (set_fr_state (add_pending_fr st f g) f g .rejected) := by
      simp [rejects_follow_request_from, hfind1]
    rw [hrej] at hr
    injection hr with hst2
    subst hst2
    have hne : frs_find (add_pending_fr st f g).followRequests f g ≠ none := by
      have heq : frs_find (add_pending_fr st f g).followRequests f g = some .pending := hfind1
      rw [heq]
      simp
    have hfind2 : fr_find (set_fr_state (add_pending_fr st f g) f g .rejected) f g
        = some .rejected := frs_find_map_set _ f g .rejected hne
    simp [approves_follow_request_from, hfind2]

/-- Witness for C7: on the store where alex follows nobody, Accept fails with
NoSuchFollowRequest; on the store where the request is already accepted it
fails with FollowRequestAlreadyProcessed; and for the concrete pair (1, 0),
request-approve-approve and request-reject-approve both end in
FollowRequestAlreadyProcessed. -/
theorem accept_reject_semantics_witness :
    accept_process envAcceptSam stAlexNone = .error .notExistingFollowRequest
    ∧ accept_process envAcceptSam stAlexAccepted = .error .followRequestAlreadyProcessed
    ∧ approves_follow_request_from 0 1
        (set_fr_state (add_pending_fr stAlexNone 1 0) 1 0 .accepted)
        = .error .followRequestAlreadyProcessed
    ∧ approves_follow_request_from 0 1
        (set_fr_state (add_pending_fr stAlexNone 1 0) 1 0 .rejected)
        = .error .followRequestAlreadyProcessed := by
  have h := accept_reject_semantics envAcceptSam stAlexNone
  have h2 := accept_reject_semantics envAcceptSam stAlexAccepted
  refine ⟨(h.2.2.1 actorSam actorAlex rfl rfl rfl).1,
    (h2.2.2.2.1 actorSam actorAlex .accepted rfl rfl rfl (by decide)).1, ?_, ?_⟩
  · exact h.2.2.2.2.1 1 0 rfl (add_pending_fr stAlexNone 1 0) rfl
      (set_fr_state (add_pending_fr stAlexNone 1 0) 1 0 .accepted) rfl
  · exact h.2.2.2.2.2 1 0 rfl (add_pending_fr stAlexNone 1 0) rfl
      (set_fr_state (add_pending_fr stAlexNone 1 0) 1 0 .rejected) rfl

/-- Claim C8: object-actor resolution selects the URL as follows — a plain
string object is used directly, an Undo activity uses the nested object
field, every other type uses the nested actor field; the lookup is by
activitypub_id with no auto-creation, failing with ActorNotFound when no
actor with that id exists and leaving the store exactly as the envelope
actor resolution produced it when it succeeds. -/
theorem object_actor_resolution (env : Env) (st : Store) (name : String) (c : Bool) :
    (∀ s, env.object = .str s → object_actor_url env = s)
    ∧ (∀ o, env.object = .obj o → env.type = "Undo" → object_actor_url env = o.object)
    ∧ (∀ o, env.object = .obj o → env.type ≠ "Undo" → object_actor_url env = o.actor)
    ∧ (∀ a st1, get_actor c name env st = .ok (a, st1) →
        lookup_actor st1 (object_actor_url env) = none →
        get_actors c name env st =
          .error (.actorNotFound ("object actor not found for " ++ name)))
    ∧ (∀ a st1 oa, get_actor c name env st = .ok (a, st1) →
        lookup_actor st1 (object_actor_url env) = some oa →
        get_actors c name env st = .ok (a, oa, st1)) := by
  refine ⟨?_, ?_, ?_, ?_, ?_⟩
  · intro s hs
    simp [object_actor_url, hs]
  · intro o ho ht
    simp [object_actor_url, ho, ht]
  · intro o ho ht
    simp [object_actor_url, ho, ht]
  · intro a st1 hga hl
    simp [get_actors, hga, hl]
  · intro a st1 oa hga hl
    simp [get_actors, hga, hl]

/-- Witness for C8: the three selection rules at concrete envelopes, the
ActorNotFound failure when the object actor is unknown, and the successful
resolution with the store untouched. -/
theorem object_actor_resolution_witness :
    object_actor_url envFollowAlex = "https://local.example/users/sam"
    ∧ object_actor_url envUndoAlex = "https://local.example/users/sam"
    ∧ object_actor_url envAcceptSam = "https://remote.example/users/alex"
    ∧ get_actors false "AcceptActivity" envAcceptSam stLocalOnly =
        .error (.actorNotFound ("object actor not found for " ++ "AcceptActivity"))
    ∧ get_actors false "AcceptActivity" envAcceptSam stAlexNone =
        .ok (actorSam, actorAlex, stAlexNone) := by
  refine ⟨(object_actor_resolution envFollowAlex stEmpty "x" false).1
      "https://local.example/users/sam" rfl,
    (object_actor_resolution envUndoAlex stEmpty "x" false).2.1 objUndoFollow rfl rfl,
    (object_actor_resolution envAcceptSam stEmpty "x" false).2.2.1 objUndoFollow rfl (by decide),
    (object_actor_resolution envAcceptSam stLocalOnly "AcceptActivity" false).2.2.2.1
      actorSam stLocalOnly rfl rfl,
    (object_actor_resolution envAcceptSam stAlexNone "AcceptActivity" false).2.2.2.2
      actorSam stAlexNone actorAlex rfl rfl⟩

/-- Claim C9: when the workout owner has blocked the viewer, retrieving the
workout is refused with the forbidden error regardless of the visibility
level and of the viewer's follower status: the block gate is evaluated
before the visibility decision. -/
theorem get_workout_blocked_forbidden (st : Store) (w : Workout) (u : AuthUser)
    (h : (w.owner_actor_id, u.id) ∈ st.blocks) :
    get_workout st w (some u) = .workoutForbidden := by
  have hb : is_blocked st w.owner_actor_id u.id = true :=
    List.any_eq_true.mpr ⟨(w.owner_actor_id, u.id), h, by simp⟩
  simp [get_workout, hb]

/-- Witness for C9: kim, blocked by sam, is refused sam's PUBLIC workout. -/
theorem get_workout_blocked_forbidden_witness :
    get_workout stBlocked workoutPub (some ⟨2, false⟩) = .workoutForbidden := by
  exact get_workout_blocked_forbidden stBlocked workoutPub ⟨2, false⟩ (by decide)

/-- Claim C10: admin rights grant no visibility privilege — the outcome of
`get_workout` never depends on the admin flag, and a non-owner, non-follower,
non-blocked admin viewer is refused FOLLOWERS and PRIVATE workouts and sees
PUBLIC workouts, exactly like any other such viewer. -/
theorem admin_grants_no_visibility (st : Store) (w : Workout) (uid : Nat) :
    (∀ a b : Bool, get_workout st w (some ⟨uid, a⟩) = get_workout st w (some ⟨uid, b⟩))
    ∧ (uid ≠ w.owner_actor_id →
       fr_find st uid w.owner_actor_id ≠ some .accepted →
       (w.owner_actor_id, uid) ∉ st.blocks →
       ((w.workout_visibility = .FOLLOWERS ∨ w.workout_visibility = .PRIVATE →
          get_workout st w (some ⟨uid, true⟩) = .workoutForbidden)
        ∧ (w.workout_visibility = .PUBLIC →
          get_workout st w (some ⟨uid, true⟩) = .returned w))) := by
  constructor
  · intro a b
    rfl
  · intro h1 h2 h3
    have hb : is_blocked st w.owner_actor_id uid = false := by
      cases hc : is_blocked st w.owner_actor_id uid
      · rfl
      · exfalso
        rcases List.any_eq_true.mp hc with ⟨p, hmem, hp⟩
        rcases p with ⟨p1, p2⟩
        simp at hp
        rcases hp with ⟨hp1, hp2⟩
        subst hp1
        subst hp2
        exact h3 hmem
    constructor
    · rintro (hv | hv) <;>
        simp [get_workout, hb, can_view_workout, Workout.visibility_for, hv,
          h1, h2, visibility_decision]
    · intro hv
      simp [get_workout, hb, can_view_workout, Workout.visibility_for, hv,
        h1, h2, visibility_decision]

/-- Witness for C10: viewer 2 on sam's workouts, with and without the admin
flag, gets identical outcomes; the admin viewer is refused the FOLLOWERS and
PRIVATE workouts and sees the PUBLIC one. -/
theorem admin_grants_no_visibility_witness :
    get_workout stLocalOnly workoutFol (some ⟨2, true⟩)
      = get_workout stLocalOnly workoutFol (some ⟨2, false⟩)
    ∧ get_workout stLocalOnly workoutFol (some ⟨2, true⟩) = .workoutForbidden
    ∧ get_workout stLocalOnly workoutPriv (some ⟨2, true⟩) = .workoutForbidden
    ∧ get_workout stLocalOnly workoutPub (some ⟨2, true⟩) = .returned workoutPub := by
  have hf := admin_grants_no_visibility stLocalOnly workoutFol 2
  have hp := admin_grants_no_visibility stLocalOnly workoutPriv 2
  have hq := admin_grants_no_visibility stLocalOnly workoutPub 2
  refine ⟨hf.1 true false, ?_, ?_, ?_⟩
  · exact (hf.2 (by decide) (by decide) (by decide)).1 (Or.inl rfl)
  · exact (hp.2 (by decide) (by decide) (by decide)).1 (Or.inr rfl)
  · exact (hq.2 (by decide) (by decide) (by decide)).2 rfl

end FitTrackee
